import Mathlib

/-!
# Verification of the Trading Decision & Orchestration Engine

A shallow embedding, in Lean 4, of the decision core of the trading bot:
the risk-eligibility gate (`TradingBot._should_trade`), the trade-execution
protocol (`TradingBot._execute_trade` / `_execute_trade_async`), the scan
loop (`TradingBot._execute_trading_strategy`), the recovery supervisor
(`BotRunner`), state loading (`config.load_state`), confidence scoring
(`utils.calculate_confidence_score`), position sizing
(`OandaClient.calculate_position_size`) and the sentiment avoid-trading
predicate (`NewsSentimentAnalyzer.should_avoid_trading`).

Python floats are modelled as rationals (`ℚ`), Python strings as `String`,
dictionaries with possibly-missing keys as records with `Option` fields,
and code that can raise as `Except`-valued functions.  Each definition is a
direct translation of the corresponding Python function; definitions whose
name carries a `Claim` suffix instead transcribe the specification's words,
for comparison against the source translation.
-/

/-- Trade direction emitted by the technical analyzer
(`technical_analysis.py` produces the strings "buy", "sell", "neutral"). -/
inductive Signal where
  | buy
  | sell
  | neutral
deriving DecidableEq, Repr

/-- `utils.calculate_confidence_score`: weighted sum of the technical,
sentiment and volatility inputs (weights 0.4 / 0.3 / 0.3), clamped to
[0, 1].  The function uses `sentiment_score` exactly as passed; it does
not take an absolute value. -/
def calculate_confidence_score (technical_score sentiment_score volatility_score : ℚ) : ℚ :=
  let confidence :=
    technical_score * (4/10) + sentiment_score * (3/10) + volatility_score * (3/10)
  max 0 (min 1 confidence)

/-- The confidence formula exactly as claim C7 words it: weighted sum
`0.4*technical + 0.3*|sentiment| + 0.3*volatility`, clamped to [0, 1]. -/
def confidenceClaim (technical_score sentiment_score volatility_score : ℚ) : ℚ :=
  max 0 (min 1
    ((4/10) * technical_score + (3/10) * |sentiment_score| + (3/10) * volatility_score))

/-- C7 (counterexample): the source's `calculate_confidence_score` does not
apply an absolute value to the sentiment input, so at the real-valued input
`technical = 0`, `sentiment = -1`, `volatility = 0` it returns `0` while
the claimed formula (with `|sentiment|`) gives `3/10`. -/
theorem C7_counterexample :
    calculate_confidence_score 0 (-1) 0 = 0 ∧
    confidenceClaim 0 (-1) 0 = 3/10 ∧
    calculate_confidence_score 0 (-1) 0 ≠ confidenceClaim 0 (-1) 0 := by
  refine ⟨?_, ?_, ?_⟩ <;> norm_num [calculate_confidence_score, confidenceClaim]

/-- C7 (amended): the combined confidence equals
`0.4*technical + 0.3*sentiment + 0.3*volatility` clamped to [0, 1], with
the sentiment input taken as passed (the pipeline passes `abs(score)`, so
for nonnegative sentiment inputs the claimed formula with `|sentiment|`
agrees); in particular the returned confidence always lies in [0, 1]. -/
theorem C7_amended (t s v : ℚ) :
    0 ≤ calculate_confidence_score t s v ∧
    calculate_confidence_score t s v ≤ 1 ∧
    (0 ≤ s → calculate_confidence_score t s v = confidenceClaim t s v) := by
  refine ⟨le_max_left _ _, ?_, ?_⟩
  · exact max_le (by norm_num) (min_le_left _ _)
  · intro hs
    simp only [calculate_confidence_score, confidenceClaim, abs_of_nonneg hs]
    ring_nf

/-- C7 (witness): the amended theorem applied at the concrete input
`technical = 1/2`, `sentiment = 1/2`, `volatility = 1/2`. -/
theorem C7_amended_witness :
    0 ≤ calculate_confidence_score (1/2) (1/2) (1/2) ∧
    calculate_confidence_score (1/2) (1/2) (1/2) ≤ 1 ∧
    calculate_confidence_score (1/2) (1/2) (1/2) = confidenceClaim (1/2) (1/2) (1/2) := by
  obtain ⟨h0, h1, h2⟩ := C7_amended (1/2) (1/2) (1/2)
  exact ⟨h0, h1, h2 (by norm_num)⟩

/-- The substring test `'JPY' in instrument` from
`OandaClient.calculate_position_size`. -/
def containsJPY (instrument : String) : Bool :=
  decide (List.IsInfix "JPY".toList instrument.toList)

/-- "JPY-quoted" in the specification's sense: the quote currency (the
trailing `_XXX` segment of the instrument name) is JPY. -/
def jpyQuoted (instrument : String) : Bool :=
  decide (List.IsSuffix "_JPY".toList instrument.toList)

/-- `config.TRADING_PAIRS`: the configured instruments. -/
def TRADING_PAIRS : List String :=
  ["EUR_USD", "GBP_USD", "USD_JPY", "USD_CHF", "AUD_USD",
   "USD_CAD", "NZD_USD", "EUR_GBP", "EUR_JPY", "GBP_JPY"]

/-- `OandaClient.calculate_position_size`.  The price lookup
`get_prices([instrument])` is modelled by `ask? : Option ℚ` (`none` when
the fetch fails or the instrument is absent, in which case the source
returns the minimum size 0.01; the fetched price is otherwise unused by
the source).  Pip value is 0.01 when the instrument name contains "JPY"
and 0.0001 otherwise; the raw size `risk_amount / (stop_loss_pips * pip)`
is clamped by `max(0.01, min(size, 0.1 * balance))`. -/
def calculate_position_size (ask? : Option ℚ)
    (account_balance risk_percentage stop_loss_pips : ℚ) (instrument : String) : ℚ :=
  match ask? with
  | none => 1/100
  | some _ =>
    let pip_value : ℚ := if containsJPY instrument then 1/100 else 1/10000
    let risk_amount := account_balance * (risk_percentage / 100)
    let position_size := risk_amount / (stop_loss_pips * pip_value)
    let min_size : ℚ := 1/100
    let max_size := account_balance * (1/10)
    max min_size (min position_size max_size)

/-- Position sizing exactly as claim C8 words it: risk = 2% of balance,
raw size = risk / (50 * pip) with pip 0.01 for JPY-quoted instruments and
0.0001 otherwise, clamped to [0.01, 0.10 * balance]. -/
def positionSizeClaim (balance : ℚ) (instrument : String) : ℚ :=
  let pip : ℚ := if jpyQuoted instrument then 1/100 else 1/10000
  let raw := balance * (2/100) / (50 * pip)
  max (1/100) (min raw (balance * (1/10)))

/-- C8 (counterexample): the source decides the pip value by the substring
test `'JPY' in instrument`, not by the quote currency.  For the instrument
name "JPY_USD" (JPY is the base, not the quote) and balance 1000 with the
price available, the source computes size 40 (pip 0.01) while the claim's
formula gives 100 (pip 0.0001, raw 4000 clamped to 0.10 * balance). -/
theorem C8_counterexample :
    calculate_position_size (some 1) 1000 2 50 "JPY_USD" = 40 ∧
    positionSizeClaim 1000 "JPY_USD" = 100 ∧
    calculate_position_size (some 1) 1000 2 50 "JPY_USD" ≠ positionSizeClaim 1000 "JPY_USD" := by
  have h1 : calculate_position_size (some 1) 1000 2 50 "JPY_USD" = 40 := by
    simp only [calculate_position_size]
    rw [show containsJPY "JPY_USD" = true from by decide]
    norm_num [max_def, min_def]
  have h2 : positionSizeClaim 1000 "JPY_USD" = 100 := by
    simp only [positionSizeClaim]
    rw [show jpyQuoted "JPY_USD" = false from by decide]
    norm_num [max_def, min_def]
  refine ⟨h1, h2, ?_⟩
  rw [h1, h2]; norm_num

/-- C8 (amended): when the price fetch succeeds, the computed size is the
claimed clamp `max(0.01, min(risk/(50*pip), 0.10*balance))` with the pip
value chosen by the substring test `'JPY' in instrument`; for every
instrument whose name contains "JPY" exactly when it is JPY-quoted — in
particular for all ten configured trading pairs — this coincides with the
claim's JPY-quoted rule; when the price fetch fails the minimum size 0.01
is returned; and the result always lies within `[0.01, max 0.01 (0.10*balance)]`. -/
theorem C8_amended :
    (∀ (p b : ℚ) (instrument : String), containsJPY instrument = jpyQuoted instrument →
      calculate_position_size (some p) b 2 50 instrument = positionSizeClaim b instrument) ∧
    (∀ pair ∈ TRADING_PAIRS, containsJPY pair = jpyQuoted pair) ∧
    (∀ (b r sl : ℚ) (instrument : String),
      calculate_position_size none b r sl instrument = 1/100) ∧
    (∀ (p b : ℚ) (instrument : String),
      1/100 ≤ calculate_position_size (some p) b 2 50 instrument ∧
      calculate_position_size (some p) b 2 50 instrument ≤ max (1/100) (b * (1/10))) := by
  refine ⟨?_, ?_, ?_, ?_⟩
  · intro p b instrument h
    simp only [calculate_position_size, positionSizeClaim, h]
  · decide
  · intro b r sl instrument; rfl
  · intro p b instrument
    constructor
    · exact le_max_left _ _
    · exact max_le (le_max_left _ _) (le_trans (min_le_right _ _) (le_max_right _ _))

/-- C8 (witness): the amended theorem applied at balance 1000 and the
configured JPY-quoted instrument "USD_JPY" (size 40 both ways). -/
theorem C8_amended_witness :
    calculate_position_size (some 1) 1000 2 50 "USD_JPY" = positionSizeClaim 1000 "USD_JPY" ∧
    calculate_position_size (some 1) 1000 2 50 "USD_JPY" = 40 := by
  refine ⟨C8_amended.1 1 1000 "USD_JPY" (by decide), ?_⟩
  simp only [calculate_position_size]
  rw [show containsJPY "USD_JPY" = true from by decide]
  norm_num [max_def, min_def]

/-- The slice of `BotState` read by `TradingBot._should_trade`:
`state.get('is_trading', True)` (the key may be absent, hence `Option`),
and the instance counters `daily_trades` and `consecutive_losses`. -/
structure GateState where
  is_trading : Option Bool
  daily_trades : Nat
  consecutive_losses : Nat
deriving DecidableEq, Repr

/-- `TradingBot._should_trade`: the risk-eligibility gate, translated
if-by-if from the source.  `avoid_trading` is the value returned by
`news_analyzer.should_avoid_trading()`, `hour` is `datetime.utcnow().hour`,
and `seconds_since_last_trade` is `(now - last_trade_time).total_seconds()`
when `last_trade_time` is set (`none` when no trade has happened yet). -/
def should_trade (st : GateState) (avoid_trading : Bool) (hour : Nat)
    (seconds_since_last_trade : Option ℚ) : Bool :=
  if ¬(st.is_trading.getD true) then false
  else if 15 ≤ st.daily_trades then false
  else if 3 ≤ st.consecutive_losses then false
  else if avoid_trading then false
  else if hour < 2 ∨ 22 < hour then false
  else match seconds_since_last_trade with
    | some t => if t < 300 then false else true
    | none => true

/-- The five-way conjunction exactly as claim C1 words it, with the hour
condition `2 ≤ hour < 22` (UTC hour within [2, 22)). -/
def eligibleClaim (st : GateState) (avoid_trading : Bool) (hour : Nat)
    (seconds_since_last_trade : Option ℚ) : Bool :=
  st.is_trading.getD true
    && decide (st.daily_trades < 15)
    && decide (st.consecutive_losses < 3)
    && !avoid_trading
    && (decide (2 ≤ hour) && decide (hour < 22)
        && (match seconds_since_last_trade with
            | some t => decide (300 ≤ t)
            | none => true))

/-- The same conjunction with the hour condition amended to `2 ≤ hour ≤ 22`
(UTC hour within [2, 23)), which is what the source's
`if hour < 2 or hour > 22` test actually admits. -/
def eligibleAmended (st : GateState) (avoid_trading : Bool) (hour : Nat)
    (seconds_since_last_trade : Option ℚ) : Bool :=
  st.is_trading.getD true
    && decide (st.daily_trades < 15)
    && decide (st.consecutive_losses < 3)
    && !avoid_trading
    && (decide (2 ≤ hour) && decide (hour ≤ 22)
        && (match seconds_since_last_trade with
            | some t => decide (300 ≤ t)
            | none => true))

/-- C1 (counterexample): at UTC hour 22 with every other condition
satisfied (trading enabled, 0 daily trades, 0 consecutive losses, no
avoid-trading signal, no previous trade), the source gate returns `true`
although the claimed condition "hour lies within [2, 22)" is false — the
source test `hour < 2 or hour > 22` admits hour 22, so the claimed
five-way "if and only if" fails. -/
theorem C1_counterexample :
    should_trade ⟨some true, 0, 0⟩ false 22 none = true ∧
    eligibleClaim ⟨some true, 0, 0⟩ false 22 none = false := by
  decide

/-- C1 (amended): the gate returns `true` exactly when all five conditions
hold, with condition five amended to "UTC hour lies within [2, 23)" — i.e.
`2 ≤ hour ≤ 22` — together with the 300-second cooldown; consequently
flipping any single condition to false forces the gate to `false`. -/
theorem C1_amended (st : GateState) (avoid_trading : Bool) (hour : Nat)
    (seconds_since_last_trade : Option ℚ) :
    should_trade st avoid_trading hour seconds_since_last_trade
      = eligibleAmended st avoid_trading hour seconds_since_last_trade := by
  unfold should_trade eligibleAmended
  rcases seconds_since_last_trade with _ | t <;>
  cases hb : st.is_trading.getD true <;>
  cases avoid_trading <;>
  by_cases h1 : 15 ≤ st.daily_trades <;>
  by_cases h2 : 3 ≤ st.consecutive_losses <;>
  by_cases h3 : hour < 2 ∨ 22 < hour <;>
  simp_all [Nat.not_le, Nat.not_lt, not_or, not_lt] <;>
  try omega
  all_goals (by_cases h4 : t < 300 <;> simp_all [not_lt])

/-- The result dictionary of
`NewsSentimentAnalyzer.analyze_news_sentiment`, whose keys may be absent:
the fallback dictionary returned on an internal failure of the analysis
omits the `volatility_score` key entirely. -/
structure SentimentAnalysis where
  sentiment : Option String
  score : Option ℚ
  confidence : Option ℚ
  volatility_score : Option ℚ
  articles_analyzed : Option Nat
deriving DecidableEq, Repr

/-- A Python dictionary subscript `analysis[key]`: raises `KeyError`
(modelled as `Except.error`) when the key is absent. -/
def getKey {α : Type} : Option α → Except Unit α
  | some a => .ok a
  | none => .error ()

/-- The body of `NewsSentimentAnalyzer.should_avoid_trading` inside its
`try`: subscripts `volatility_score`, `sentiment` and (only when the
sentiment equals "negative", by Python's short-circuit `and`) `score`,
returning `true` when `volatility_score > 0.7` or when the sentiment is
negative with `score < -0.3`.  A missing key raises. -/
def should_avoid_trading_body (a : SentimentAnalysis) : Except Unit Bool := do
  let v ← getKey a.volatility_score
  if 7/10 < v then
    return true
  else
    let s ← getKey a.sentiment
    if s = "negative" then
      let sc ← getKey a.score
      if sc < -(3/10) then return true else return false
    else
      return false

/-- `NewsSentimentAnalyzer.should_avoid_trading`: the whole body runs in a
`try` whose `except` returns `False`.  The argument is the outcome of the
inner `analyze_news_sentiment()` call (`Except.error` when that call
itself raises). -/
def should_avoid_trading (r : Except Unit SentimentAnalysis) : Bool :=
  match r >>= should_avoid_trading_body with
  | .ok b => b
  | .error _ => false

/-- The fallback dictionary `analyze_news_sentiment` returns when its own
body raises: `{"sentiment": "neutral", "score": 0.0, "confidence": 0.0,
"articles_analyzed": 0}` — note the missing `volatility_score` key. -/
def analyze_failure_result : SentimentAnalysis :=
  ⟨some "neutral", some 0, some 0, none, some 0⟩

/-- `TradingBot._should_trade` runs inside a `try` whose `except` logs and
returns `False`: an internal error of the gate itself yields `false`
(fails closed).  The argument bundles the gate's inputs, `Except.error`
standing for an exception raised while computing them. -/
def should_trade_checked
    (inputs : Except Unit (GateState × Bool × Nat × Option ℚ)) : Bool :=
  match inputs with
  | .ok (st, avoid, hour, secs) => should_trade st avoid hour secs
  | .error _ => false

/-- C10: whenever the sentiment analysis inside the avoid-trading
predicate raises — because `analyze_news_sentiment()` itself fails, or
because its result lacks an expected key, as the analyzer's own fallback
dictionary (which omits `volatility_score`) does — `should_avoid_trading`
returns `false` rather than propagating, so a failing sentiment service
never blocks trading through this predicate (it fails open); the
eligibility gate, by contrast, returns `false` on its own internal
errors (fails closed). -/
theorem C10_fails_open :
    (∀ r : Except Unit SentimentAnalysis,
      (r >>= should_avoid_trading_body).isOk = false → should_avoid_trading r = false) ∧
    should_avoid_trading (.error ()) = false ∧
    should_avoid_trading (.ok analyze_failure_result) = false ∧
    should_trade_checked (.error ()) = false := by
  refine ⟨?_, rfl, rfl, rfl⟩
  intro r h
  unfold should_avoid_trading
  cases hr : r >>= should_avoid_trading_body with
  | ok b => rw [hr] at h; simp [Except.isOk, Except.toBool] at h
  | error e => rfl

/-- C10 (witness): the theorem's quantified part applied to the concrete
exceptional outcome `Except.error ()` of the sentiment analysis. -/
theorem C10_fails_open_witness :
    (((Except.error () : Except Unit SentimentAnalysis)
        >>= should_avoid_trading_body).isOk = false) ∧
    should_avoid_trading (.error ()) = false := by
  exact ⟨rfl, C10_fails_open.1 (.error ()) rfl⟩

/-- The inputs `BotRunner._perform_health_check` inspects: whether
`self.bot` exists and its `is_running` flag, whether `self.bot.oanda_client`
exists, whether the probe call `get_account_info()` returned without
raising, and the Telegram-notification outcome (which the reset logic
ignores). -/
structure HealthInputs where
  bot_exists : Bool
  bot_is_running : Bool
  oanda_exists : Bool
  probe_ok : Bool
  telegram_exists : Bool
  notify_ok : Bool
deriving DecidableEq, Repr

/-- `health_status["bot_running"]`: `self.bot.is_running if self.bot else
False`. -/
def health_bot_running (h : HealthInputs) : Bool :=
  h.bot_exists && h.bot_is_running

/-- `health_status.get("oanda_connected", False)`: the key is written only
when both the bot and the OANDA client exist (then `True` iff the probe
call did not raise); otherwise it is absent and the `.get` default `False`
applies. -/
def health_oanda_connected (h : HealthInputs) : Bool :=
  if h.bot_exists && h.oanda_exists then h.probe_ok else false

/-- `BotRunner._perform_health_check`, restricted to its effect on
`consecutive_failures`: the counter is set to zero when
`health_status.get("bot_running", False) and
health_status.get("oanda_connected", False)` holds, and left unchanged
otherwise. -/
def perform_health_check (h : HealthInputs) (consecutive_failures : Nat) : Nat :=
  if health_bot_running h && health_oanda_connected h then 0
  else consecutive_failures

/-- C9: the probe resets `consecutive_failures` to zero exactly when the
bot-running flag is true and the market-data connectivity probe was both
performed and successful; when the running flag is false, or the probe
failed or was not performed, the counter is left unchanged. -/
theorem C9_reset_condition (h : HealthInputs) (n : Nat) :
    (health_bot_running h = true ∧ health_oanda_connected h = true →
      perform_health_check h n = 0) ∧
    (health_bot_running h = false ∨ health_oanda_connected h = false →
      perform_health_check h n = n) := by
  constructor
  · rintro ⟨h1, h2⟩
    simp [perform_health_check, h1, h2]
  · intro hor
    rcases hor with h1 | h1 <;> simp [perform_health_check, h1]

/-- C9 (witness): the theorem applied at a concrete healthy probe (reset
to zero) using its first conjunct. -/
theorem C9_reset_condition_witness :
    perform_health_check ⟨true, true, true, true, true, true⟩ 2 = 0 :=
  (C9_reset_condition ⟨true, true, true, true, true, true⟩ 2).1 ⟨rfl, rfl⟩

/-- The `BotRunner` fields driving
`_run_trading_loop_with_recovery`: the `is_running` flag (cleared by
`stop()`) and the `consecutive_failures` counter; `stopped` records that
the recovery loop has exited (its `break` was reached), which is
terminal. -/
structure RunnerState where
  is_running : Bool
  consecutive_failures : Nat
  stopped : Bool
deriving DecidableEq, Repr

/-- What the supervisor did on one observed failure of the trading loop. -/
inductive RecoveryAction where
  | restarted (backoff_seconds : Nat)
  | stopped_now
  | idle
deriving DecidableEq, Repr

/-- One iteration of `BotRunner._run_trading_loop_with_recovery` in which
the awaited trading loop raised an uncaught exception: the counter is
incremented; if it has reached `max_consecutive_failures = 3`, `stop()`
runs (clearing `is_running`) and the loop breaks (terminal); otherwise the
supervisor sleeps 10 seconds and the `while` re-enters the loop
(a restart).  Once the loop has exited — or `is_running` is false — no
further iteration runs. -/
def recovery_step (r : RunnerState) : RunnerState × RecoveryAction :=
  if r.stopped ∨ ¬r.is_running then (r, .idle)
  else
    let f := r.consecutive_failures + 1
    if 3 ≤ f then
      ({ is_running := false, consecutive_failures := f, stopped := true }, .stopped_now)
    else
      ({ r with consecutive_failures := f }, .restarted 10)

/-- The supervisor observing a sequence of `n` successive uncaught
failures of the trading loop, collecting the action taken at each. -/
def recovery_run : RunnerState → Nat → RunnerState × List RecoveryAction
  | r, 0 => (r, [])
  | r, n + 1 =>
    let (r', a) := recovery_step r
    let (r'', as) := recovery_run r' n
    (r'', a :: as)

/-- Once the recovery loop has exited, every further step is inert. -/
theorem recovery_step_stopped (r : RunnerState) (h : r.stopped = true) :
    recovery_step r = (r, .idle) := by
  simp [recovery_step, h]

/-- C4: on every uncaught failure of the scheduler loop while the
supervisor is live, `consecutive_failures` increments by exactly 1; while
the incremented counter is still below 3 the supervisor restarts the loop
after a fixed 10-second backoff and stays running; when the counter
reaches 3 it stops (terminal) and no restart is issued; and from the
terminal state no later failure ever produces another restart. -/
theorem C4_recovery (r : RunnerState) (n : Nat)
    (hrun : r.is_running = true) (hstop : r.stopped = false) :
    ((recovery_step r).1.consecutive_failures = r.consecutive_failures + 1) ∧
    (r.consecutive_failures + 1 < 3 →
      (recovery_step r).2 = .restarted 10 ∧
      (recovery_step r).1.is_running = true ∧
      (recovery_step r).1.stopped = false) ∧
    (3 ≤ r.consecutive_failures + 1 →
      (recovery_step r).2 = .stopped_now ∧
      (recovery_step r).1.stopped = true ∧
      (recovery_step r).1.is_running = false) ∧
    (∀ r' : RunnerState, r'.stopped = true →
      ∀ b, RecoveryAction.restarted b ∉ (recovery_run r' n).2) := by
  refine ⟨?_, ?_, ?_, ?_⟩
  · by_cases h3 : 3 ≤ r.consecutive_failures + 1 <;>
      simp [recovery_step, hrun, hstop, h3]
  · intro hlt
    have h3 : ¬ 3 ≤ r.consecutive_failures + 1 := by omega
    simp [recovery_step, hrun, hstop, h3]
  · intro hge
    simp [recovery_step, hrun, hstop, hge]
  · intro r' hstopped b
    induction n generalizing r' with
    | zero => simp [recovery_run]
    | succ m ih =>
      simp only [recovery_run, recovery_step_stopped r' hstopped]
      intro hmem
      rcases List.mem_cons.mp hmem with h | h
      · exact absurd h (by simp)
      · exact ih r' hstopped h

/-- C4 (witness): the theorem applied at the live supervisor with one
prior failure: a second failure increments the counter to 2 and restarts
with the 10-second backoff; and from a stopped state, three further
failures produce no restart. -/
theorem C4_recovery_witness :
    (recovery_step ⟨true, 1, false⟩).1.consecutive_failures = 2 ∧
    (recovery_step ⟨true, 1, false⟩).2 = .restarted 10 ∧
    (∀ b, RecoveryAction.restarted b ∉ (recovery_run ⟨false, 3, true⟩ 3).2) := by
  obtain ⟨h1, h2, _, h4⟩ := C4_recovery ⟨true, 1, false⟩ 3 rfl rfl
  exact ⟨h1, (h2 (by norm_num)).1, fun b => h4 ⟨false, 3, true⟩ rfl b⟩

/-- `TradeRecord` as appended by the executor and stored in
`state['trades']` (`trade_info` in `_execute_trade`). -/
structure TradeInfo where
  pair : String
  side : String
  units : ℚ
  price : ℚ
  confidence : ℚ
  timestamp : String
deriving DecidableEq, Repr

/-- `BotState` as produced by `config.get_default_state` and persisted in
`bot_state.json`.  The nested dictionaries `strategy_performance` and
`sentiment_scores` are opaque to every claim and carried as association
lists of their (unused) entries. -/
structure BotState where
  trades : List TradeInfo
  open_positions : List String
  total_pnl : ℚ
  win_count : Nat
  loss_count : Nat
  current_mode : String
  last_news_scrape : Option String
  last_price_scan : Option String
  last_heartbeat : Option String
  is_trading : Bool
  error_count : Nat
  start_time : String
  session_trades : Nat
  daily_pnl : ℚ
deriving DecidableEq, Repr

/-- `config.get_default_state`, with `datetime.now().isoformat()` passed
in as `now`. -/
def get_default_state (now : String) : BotState :=
  { trades := []
    open_positions := []
    total_pnl := 0
    win_count := 0
    loss_count := 0
    current_mode := "aggressive"
    last_news_scrape := none
    last_price_scan := none
    last_heartbeat := none
    is_trading := true
    error_count := 0
    start_time := now
    session_trades := 0
    daily_pnl := 0 }

/-- The exceptions `open(STATE_FILE)` / `json.load` can raise. -/
inductive PyError where
  | fileNotFound
  | jsonDecode
deriving DecidableEq, Repr

/-- The semantics of `open(STATE_FILE, 'r')` followed by `json.load(f)`:
the file content is modelled as `none` (file missing → `FileNotFoundError`),
`some none` (file present but not valid JSON → `json.JSONDecodeError`), or
`some (some s)` (valid JSON parsing to the state `s`). -/
def open_and_parse (file : Option (Option BotState)) : Except PyError BotState :=
  match file with
  | none => .error .fileNotFound
  | some none => .error .jsonDecode
  | some (some s) => .ok s

/-- `config.load_state`: the `try` catches `FileNotFoundError` only,
returning the default state; any other exception — in particular the
`JSONDecodeError` raised on malformed content — propagates to the caller
(`TradingBot.__init__`, line 27, outside any handler). -/
def load_state (file : Option (Option BotState)) (now : String) : Except PyError BotState :=
  match open_and_parse file with
  | .error .fileNotFound => .ok (get_default_state now)
  | .error .jsonDecode => .error .jsonDecode
  | .ok s => .ok s

/-- C3 (counterexample): a state file whose content is not valid JSON is
not treated like a missing file: loading raises (the `JSONDecodeError`
escapes `load_state`, so startup crashes), while a missing file returns
the bootstrap default — refuting "loading state at startup never raises". -/
theorem C3_counterexample :
    load_state (some none) "t0" = .error .jsonDecode ∧
    load_state none "t0" = .ok (get_default_state "t0") ∧
    load_state (some none) "t0" ≠ load_state none "t0" := by
  exact ⟨rfl, rfl, by simp [load_state, open_and_parse]⟩

/-- C3 (amended): a missing state file is handled by returning the
bootstrap default state, and a readable file parses to its content; but a
malformed file (content that is not valid JSON) raises `JSONDecodeError`,
which `load_state` does not catch, so the process can fail to start on a
corrupt state file. -/
theorem C3_amended (now : String) :
    (∀ file : Option (Option BotState), (load_state file now).isOk = false →
      file = some none) ∧
    load_state none now = .ok (get_default_state now) ∧
    (∀ s : BotState, load_state (some (some s)) now = .ok s) ∧
    load_state (some none) now = .error .jsonDecode := by
  refine ⟨?_, rfl, fun s => rfl, rfl⟩
  intro file h
  rcases file with _ | _ | s
  · simp [load_state, open_and_parse, Except.isOk, Except.toBool] at h
  · rfl
  · simp [load_state, open_and_parse, Except.isOk, Except.toBool] at h

/-- C3 (witness): the amended theorem's quantified part applied at the
malformed-content input. -/
theorem C3_amended_witness :
    (load_state (some none) "t0").isOk = false ∧ (some none : Option (Option BotState)) = some none := by
  exact ⟨rfl, (C3_amended "t0").1 (some none) rfl⟩

/-- `config` intervals: `NEWS_SCRAPE_INTERVAL = 12*60`,
`PRICE_SCAN_INTERVAL = 7`, `HEARTBEAT_INTERVAL = 5*60`,
`LOG_CLEANUP_INTERVAL = 60*60` (seconds). -/
def NEWS_SCRAPE_INTERVAL : ℚ := 12 * 60

/-- `config.PRICE_SCAN_INTERVAL` (seconds). -/
def PRICE_SCAN_INTERVAL : ℚ := 7

/-- `config.HEARTBEAT_INTERVAL` (seconds). -/
def HEARTBEAT_INTERVAL : ℚ := 5 * 60

/-- `config.LOG_CLEANUP_INTERVAL` (seconds). -/
def LOG_CLEANUP_INTERVAL : ℚ := 60 * 60

/-- The local last-run timestamps tracked by
`TradingBot._run_trading_loop_async` (`time.time()` seconds). -/
structure TaskTimers where
  last_news_scrape : ℚ
  last_price_scan : ℚ
  last_heartbeat : ℚ
  last_cleanup : ℚ
deriving DecidableEq, Repr

/-- The per-day counters of `TradingBot` (`self.daily_trades`,
`self.daily_pnl`, `self.consecutive_losses`), the ones `_daily_reset`
clears. -/
structure DailyCounters where
  daily_trades : Nat
  daily_pnl : ℚ
  consecutive_losses : Nat
deriving DecidableEq, Repr

/-- `TradingBot._daily_reset`: the dedicated reset task.  The synchronous
loop schedules it daily at 00:00 via `schedule.every().day.at("00:00")`;
the asynchronous loop below never invokes it. -/
def daily_reset (_c : DailyCounters) : DailyCounters :=
  { daily_trades := 0, daily_pnl := 0, consecutive_losses := 0 }

/-- One iteration of the `while` body of
`TradingBot._run_trading_loop_async`: each of the four periodic tasks
fires when `now - lastRun >= interval` (none of them touches the daily
counters); then, when the gate admits a trade and the order placement
succeeds, `_execute_trade_async` increments `daily_trades` by one
(`trade_executed` abstracts that combined outcome).  The body contains no
fifth branch: no day-boundary test and no call to `daily_reset`. -/
def async_loop_tick (now : ℚ) (tm : TaskTimers) (c : DailyCounters)
    (trade_executed : Bool) : TaskTimers × DailyCounters :=
  let tm := if NEWS_SCRAPE_INTERVAL ≤ now - tm.last_news_scrape then
      { tm with last_news_scrape := now } else tm
  let tm := if PRICE_SCAN_INTERVAL ≤ now - tm.last_price_scan then
      { tm with last_price_scan := now } else tm
  let tm := if HEARTBEAT_INTERVAL ≤ now - tm.last_heartbeat then
      { tm with last_heartbeat := now } else tm
  let tm := if LOG_CLEANUP_INTERVAL ≤ now - tm.last_cleanup then
      { tm with last_cleanup := now } else tm
  let c := if trade_executed then
      { c with daily_trades := c.daily_trades + 1 } else c
  (tm, c)

/-- The async loop run over a trace of ticks, each given by its wall-clock
time and whether a trade was executed in it. -/
def async_loop_run (tm : TaskTimers) (c : DailyCounters) :
    List (ℚ × Bool) → TaskTimers × DailyCounters
  | [] => (tm, c)
  | (now, ex) :: rest =>
    let (tm', c') := async_loop_tick now tm c ex
    async_loop_run tm' c' rest

/-- C5: in the async orchestration loop — the loop both entry points
actually run — `daily_trades` after a tick always equals its previous
value plus the tick's executed-trade count, whatever the tick's wall-clock
time; hence over any trace it is monotonically non-decreasing but is never
reset: in the concrete trace that crosses the UTC day boundary at
86400 s with `daily_trades = 5`, the counter is still 5 after the
boundary, where the claim demands a reset to zero by the dedicated
periodic task (`daily_reset`, which the sync loop schedules at 00:00 but
the async loop never calls). -/
theorem C5_no_daily_reset :
    (∀ (now : ℚ) (tm : TaskTimers) (c : DailyCounters) (ex : Bool),
      ((async_loop_tick now tm c ex).2).daily_trades
        = c.daily_trades + (if ex then 1 else 0)) ∧
    (∀ (steps : List (ℚ × Bool)) (tm : TaskTimers) (c : DailyCounters),
      c.daily_trades ≤ ((async_loop_run tm c steps).2).daily_trades) ∧
    ((async_loop_run ⟨86390, 86390, 86390, 86390⟩ ⟨5, 0, 0⟩
        [(86399, false), (86401, false), (86403, false)]).2).daily_trades = 5 ∧
    (daily_reset ⟨5, 0, 0⟩).daily_trades = 0 := by
  have htick : ∀ (now : ℚ) (tm : TaskTimers) (c : DailyCounters) (ex : Bool),
      ((async_loop_tick now tm c ex).2).daily_trades
        = c.daily_trades + (if ex then 1 else 0) := by
    intro now tm c ex
    cases ex <;> simp [async_loop_tick]
  refine ⟨htick, ?_, ?_, rfl⟩
  · intro steps
    induction steps with
    | nil => intro tm c; simp [async_loop_run]
    | cons p rest ih =>
      intro tm c
      obtain ⟨now, ex⟩ := p
      simp only [async_loop_run]
      refine le_trans ?_ (ih _ _)
      rw [htick]
      omega
  · norm_num [async_loop_run, async_loop_tick, NEWS_SCRAPE_INTERVAL,
      PRICE_SCAN_INTERVAL, HEARTBEAT_INTERVAL, LOG_CLEANUP_INTERVAL]

/-- The slice of `TradingBot` mutated by `_execute_trade` /
`_execute_trade_async`: the `daily_trades` counter, `last_trade_time`
(a timestamp token) and the in-memory `state['trades']` list. -/
structure ExecState where
  daily_trades : Nat
  last_trade_time : Option String
  trades : List TradeInfo
deriving DecidableEq, Repr

/-- Externally visible steps of one execution, in program order. -/
inductive ExecEffect where
  | order_placed
  | incremented_daily
  | set_last_trade_time
  | notify_attempted
  | appended_trade
  | persisted_state
deriving DecidableEq, Repr

/-- The outcome of one `_execute_trade` call: the new tracking/state
slice, the `trades` list passed to `save_state` (`none` when `save_state`
was never reached), and the effect trace in program order. -/
structure ExecOutcome where
  state : ExecState
  persisted : Option (List TradeInfo)
  trace : List ExecEffect
deriving DecidableEq, Repr

/-- `TradingBot._execute_trade` (synchronous).  In source order: a
direction other than "buy"/"sell" returns before any order is placed; the
order is placed; a falsy order result skips everything else; on a truthy
result `daily_trades` is incremented and `last_trade_time` set, the
Telegram notification is attempted inside its own `try` (so its failure
is caught and execution continues), and only then is the record appended
to `state['trades']` and `save_state` called. -/
def execute_trade (sig : Signal) (position_size price conf : ℚ)
    (pair now : String) (order_ok telegram_exists notify_ok : Bool)
    (s : ExecState) : ExecOutcome :=
  match sig with
  | .neutral => ⟨s, none, []⟩
  | _ =>
    let units : ℚ := if sig = .buy then position_size else -position_size
    let side : String := if sig = .buy then "buy" else "sell"
    if ¬order_ok then ⟨s, none, [.order_placed]⟩
    else
      let s1 := { s with daily_trades := s.daily_trades + 1,
                         last_trade_time := some now }
      let ti : TradeInfo := ⟨pair, side, units, price, conf, now⟩
      let notify_trace : List ExecEffect :=
        if telegram_exists then [.notify_attempted] else []
      let s2 := { s1 with trades := s1.trades ++ [ti] }
      ⟨s2, some s2.trades,
        [.order_placed, .incremented_daily, .set_last_trade_time]
          ++ notify_trace ++ [.appended_trade, .persisted_state]⟩

/-- `TradingBot._execute_trade_async`.  Identical to the synchronous
version except that `await send_trade_alert(...)` is *not* wrapped in its
own `try`: when the notification raises, the method's outer `except`
catches it and returns — the record is never appended and `save_state`
is never called (the counter and timestamp were already mutated). -/
def execute_trade_async (sig : Signal) (position_size price conf : ℚ)
    (pair now : String) (order_ok telegram_exists notify_ok : Bool)
    (s : ExecState) : ExecOutcome :=
  match sig with
  | .neutral => ⟨s, none, []⟩
  | _ =>
    let units : ℚ := if sig = .buy then position_size else -position_size
    let side : String := if sig = .buy then "buy" else "sell"
    if ¬order_ok then ⟨s, none, [.order_placed]⟩
    else
      let s1 := { s with daily_trades := s.daily_trades + 1,
                         last_trade_time := some now }
      let ti : TradeInfo := ⟨pair, side, units, price, conf, now⟩
      if telegram_exists ∧ ¬notify_ok then
        ⟨s1, none,
          [.order_placed, .incremented_daily, .set_last_trade_time, .notify_attempted]⟩
      else
        let notify_trace : List ExecEffect :=
          if telegram_exists then [.notify_attempted] else []
        let s2 := { s1 with trades := s1.trades ++ [ti] }
        ⟨s2, some s2.trades,
          [.order_placed, .incremented_daily, .set_last_trade_time]
            ++ notify_trace ++ [.appended_trade, .persisted_state]⟩

/-- C2 (counterexample): a buy opportunity whose order placement succeeds
but whose notification fails, in the async path: the counter is
incremented and `last_trade_time` set, yet the TradeRecord is never
appended and `save_state` is never called — refuting both "appends the
TradeRecord and persists state via the StateStore before returning" and
"a best-effort notification whose failure does not undo the trade". -/
theorem C2_counterexample :
    (execute_trade_async .buy 40 1 (17/20) "EUR_USD" "t1" true true false
        ⟨0, none, []⟩).state = ⟨1, some "t1", []⟩ ∧
    (execute_trade_async .buy 40 1 (17/20) "EUR_USD" "t1" true true false
        ⟨0, none, []⟩).persisted = none ∧
    (execute_trade_async .buy 40 1 (17/20) "EUR_USD" "t1" true true false
        ⟨0, none, []⟩).trace
      = [.order_placed, .incremented_daily, .set_last_trade_time, .notify_attempted] := by
  refine ⟨rfl, rfl, rfl⟩

/-- C2 (amended): for a buy or sell opportunity, when the order placement
succeeds the code increments `daily_trades`, sets `last_trade_time = now`,
*then* attempts the best-effort notification, and only afterwards appends
the TradeRecord and persists the state; in the synchronous path a
notification failure is caught so the append and persist still happen,
while in the async path a notification failure aborts the append and the
persist (the counter and timestamp stay mutated).  When the order
placement fails, or the direction is neither buy nor sell, no state is
mutated and nothing is persisted. -/
theorem C2_amended (sig : Signal) (position_size price conf : ℚ)
    (pair now : String) (tg notify_ok : Bool) (s : ExecState) :
    (execute_trade sig position_size price conf pair now false tg notify_ok s
        = ⟨s, none, if sig = .neutral then [] else [.order_placed]⟩) ∧
    (execute_trade_async sig position_size price conf pair now false tg notify_ok s
        = ⟨s, none, if sig = .neutral then [] else [.order_placed]⟩) ∧
    (execute_trade .neutral position_size price conf pair now true tg notify_ok s
        = ⟨s, none, []⟩) ∧
    (sig ≠ .neutral →
      let side : String := if sig = .buy then "buy" else "sell"
      let units : ℚ := if sig = .buy then position_size else -position_size
      let ti : TradeInfo := ⟨pair, side, units, price, conf, now⟩
      let committed : ExecState :=
        ⟨s.daily_trades + 1, some now, s.trades ++ [ti]⟩
      (execute_trade sig position_size price conf pair now true tg notify_ok s
          = ⟨committed, some (s.trades ++ [ti]),
              [.order_placed, .incremented_daily, .set_last_trade_time]
                ++ (if tg then [.notify_attempted] else [])
                ++ [.appended_trade, .persisted_state]⟩) ∧
      (tg = true → notify_ok = false →
        execute_trade_async sig position_size price conf pair now true tg notify_ok s
          = ⟨⟨s.daily_trades + 1, some now, s.trades⟩, none,
              [.order_placed, .incremented_daily, .set_last_trade_time,
               .notify_attempted]⟩) ∧
      (tg = false ∨ notify_ok = true →
        execute_trade_async sig position_size price conf pair now true tg notify_ok s
          = ⟨committed, some (s.trades ++ [ti]),
              [.order_placed, .incremented_daily, .set_last_trade_time]
                ++ (if tg then [.notify_attempted] else [])
                ++ [.appended_trade, .persisted_state]⟩)) := by
  refine ⟨?_, ?_, rfl, ?_⟩
  · cases sig <;> rfl
  · cases sig <;> rfl
  · intro hsig
    refine ⟨?_, ?_, ?_⟩
    · cases sig <;> simp_all [execute_trade]
    · intro htg hnok
      cases sig <;> simp_all [execute_trade_async]
    · intro hok
      cases sig <;>
        rcases hok with h | h <;>
          simp_all [execute_trade_async]

/-- C2 (witness): the amended theorem applied to a concrete successful
sell trade with a working notification channel, in the async path. -/
theorem C2_amended_witness :
    execute_trade_async .sell 40 1 (17/20) "EUR_USD" "t1" true true true ⟨0, none, []⟩
      = ⟨⟨1, some "t1", [⟨"EUR_USD", "sell", -40, 1, 17/20, "t1"⟩]⟩,
          some [⟨"EUR_USD", "sell", -40, 1, 17/20, "t1"⟩],
          [.order_placed, .incremented_daily, .set_last_trade_time,
           .notify_attempted, .appended_trade, .persisted_state]⟩ := by
  have h := (C2_amended .sell 40 1 (17/20) "EUR_USD" "t1" true true
      ⟨0, none, []⟩).2.2.2 (by simp) |>.2.2 (Or.inr rfl)
  simpa using h

/-- The per-instrument data the scan loop body of
`TradingBot._execute_trading_strategy` gathers: the ask price when the
pair is present in the fetched `prices` dictionary, the
`is_spread_acceptable` verdict, the number of completed close bars when
`get_candles` succeeded (`none` models the falsy `{}` failure result),
the technical signal, the technical confidence, and the sentiment
score. -/
structure PairAnalysis where
  pair : String
  ask : Option ℚ
  spread_acceptable : Bool
  close_bars : Option Nat
  signal : Signal
  technical_confidence : ℚ
  sentiment_score : ℚ
deriving DecidableEq, Repr

/-- The overall confidence the loop computes for one pair:
`calculate_confidence_score(technical_confidence, abs(sentiment_score),
0.5)` — the volatility argument is the literal 0.5 in the source. -/
def opportunity_confidence (a : PairAnalysis) : ℚ :=
  calculate_confidence_score a.technical_confidence |a.sentiment_score| (1/2)

/-- The `best_opportunity` dictionary built by the scan loop. -/
structure Opportunity where
  pair : String
  signal : Signal
  confidence : ℚ
  price : ℚ
deriving DecidableEq, Repr

/-- One iteration of the `for pair in TRADING_PAIRS` loop of
`_execute_trading_strategy`, acting on the accumulator
`(best_opportunity, best_confidence)` (initially `(None, 0.0)`): skip the
pair when it is absent from `prices`, when the spread is unacceptable, or
when candles are missing or have fewer than 50 close bars; otherwise
replace the accumulator when `overall_confidence > best_confidence and
overall_confidence > 0.6 and signal != 'neutral'`. -/
def scan_step (acc : Option Opportunity × ℚ) (a : PairAnalysis) :
    Option Opportunity × ℚ :=
  match a.ask with
  | none => acc
  | some ask =>
    if ¬a.spread_acceptable then acc
    else
      match a.close_bars with
      | none => acc
      | some n =>
        if n < 50 then acc
        else
          let conf := opportunity_confidence a
          if acc.2 < conf ∧ (6 : ℚ)/10 < conf ∧ a.signal ≠ .neutral then
            (some ⟨a.pair, a.signal, conf, ask⟩, conf)
          else acc

/-- The whole scan loop of `_execute_trading_strategy`. -/
def scan (l : List PairAnalysis) : Option Opportunity × ℚ :=
  l.foldl scan_step (none, 0)

/-- The selection rule with the inline `> 0.6` candidate filter removed:
first strict maximum of the confidence over the pairs the source does not
skip.  The amended claim relates the source's `scan` to this rule. -/
def spec_step (acc : Option Opportunity × ℚ) (a : PairAnalysis) :
    Option Opportunity × ℚ :=
  match a.ask with
  | none => acc
  | some ask =>
    if ¬a.spread_acceptable then acc
    else
      match a.close_bars with
      | none => acc
      | some n =>
        if n < 50 then acc
        else
          let conf := opportunity_confidence a
          if acc.2 < conf ∧ a.signal ≠ .neutral then
            (some ⟨a.pair, a.signal, conf, ask⟩, conf)
          else acc

/-- First-maximum selection over the non-skipped pairs. -/
def spec_scan (l : List PairAnalysis) : Option Opportunity × ℚ :=
  l.foldl spec_step (none, 0)

/-- Claim C6's discard rule exactly as worded: an instrument is discarded
with an unacceptable spread, with fewer than 50 historical bars, or with a
neutral technical signal. -/
def claim_eligible (a : PairAnalysis) : Bool :=
  a.spread_acceptable && decide (50 ≤ a.close_bars.getD 0)
    && decide (a.signal ≠ Signal.neutral)

/-- The scan exactly as claim C6 words it: among the instruments that
survive the three discard conditions, return the single
highest-confidence Opportunity, ties broken by iteration order (first
wins); no further condition. -/
def scanClaim (l : List PairAnalysis) : Option Opportunity × ℚ :=
  l.foldl
    (fun acc a =>
      if claim_eligible a ∧ acc.2 < opportunity_confidence a then
        (some ⟨a.pair, a.signal, opportunity_confidence a, a.ask.getD 0⟩,
          opportunity_confidence a)
      else acc)
    (none, 0)

/-- A pair the source's loop does not skip: present in `prices`,
acceptable spread, candles present with at least 50 close bars, and a
non-neutral technical signal (the last is part of the update condition
rather than a `continue`, but a neutral pair can never be selected). -/
def src_eligible (a : PairAnalysis) : Prop :=
  a.ask.isSome = true ∧ a.spread_acceptable = true ∧
    a.close_bars.isSome = true ∧ 50 ≤ a.close_bars.getD 0 ∧ a.signal ≠ .neutral

/-- `TradingBot._execute_trading_strategy`: returns the opportunity passed
to `_execute_trade`, or `none` when no trade is executed.  `balance?` is
`account_info.get('balance', 0)` when `get_account_info()` returned a
truthy dictionary and `none` otherwise (`if not account_info or
account_info.get('balance', 0) < 100: return`); an empty `prices`
dictionary returns early in the source and is modelled by every pair
having `ask = none`, which scans to `none` as well. -/
def execute_trading_strategy (balance? : Option ℚ) (l : List PairAnalysis) :
    Option Opportunity :=
  match balance? with
  | none => none
  | some b =>
    if b < 100 then none
    else
      let (best, best_conf) := scan l
      match best with
      | some o => if (7 : ℚ)/10 < best_conf then some o else none
      | none => none


instance (a : PairAnalysis) : Decidable (src_eligible a) := by
  unfold src_eligible; infer_instance

/-- Characterization of one source loop iteration without the 0.6 filter:
it replaces the accumulator exactly when the pair is not skipped and its
confidence strictly beats the running best. -/
theorem spec_step_eq (acc : Option Opportunity × ℚ) (a : PairAnalysis) :
    spec_step acc a =
      if src_eligible a ∧ acc.2 < opportunity_confidence a then
        (some ⟨a.pair, a.signal, opportunity_confidence a, a.ask.getD 0⟩,
          opportunity_confidence a)
      else acc := by
  obtain ⟨p, ask, sp, cb, sg, tc, ss⟩ := a
  cases ask with
  | none => simp [spec_step, src_eligible]
  | some v =>
    cases sp with
    | false => simp [spec_step, src_eligible]
    | true =>
      cases cb with
      | none => simp [spec_step, src_eligible]
      | some n =>
        by_cases hn : n < 50
        · have h50 : ¬ 50 ≤ n := by omega
          simp [spec_step, src_eligible, hn, h50]
        · by_cases hc : acc.2
              < opportunity_confidence ⟨p, some v, true, some n, sg, tc, ss⟩
          · by_cases hsg : sg = Signal.neutral
            · simp [spec_step, src_eligible, hn, hc, hsg]
            · have h50 : 50 ≤ n := by omega
              simp [spec_step, src_eligible, hn, hc, hsg, h50]
          · simp [spec_step, src_eligible, hn, hc]

/-- Characterization of one source loop iteration: as `spec_step_eq`, with
the additional inline requirement that the confidence exceed 0.6. -/
theorem scan_step_eq (acc : Option Opportunity × ℚ) (a : PairAnalysis) :
    scan_step acc a =
      if src_eligible a ∧ acc.2 < opportunity_confidence a
          ∧ (6 : ℚ)/10 < opportunity_confidence a then
        (some ⟨a.pair, a.signal, opportunity_confidence a, a.ask.getD 0⟩,
          opportunity_confidence a)
      else acc := by
  obtain ⟨p, ask, sp, cb, sg, tc, ss⟩ := a
  cases ask with
  | none => simp [scan_step, src_eligible]
  | some v =>
    cases sp with
    | false => simp [scan_step, src_eligible]
    | true =>
      cases cb with
      | none => simp [scan_step, src_eligible]
      | some n =>
        by_cases hn : n < 50
        · have h50 : ¬ 50 ≤ n := by omega
          simp [scan_step, src_eligible, hn, h50]
        · by_cases hc : acc.2
              < opportunity_confidence ⟨p, some v, true, some n, sg, tc, ss⟩
          · by_cases h6 : (6 : ℚ)/10
                < opportunity_confidence ⟨p, some v, true, some n, sg, tc, ss⟩
            · by_cases hsg : sg = Signal.neutral
              · simp [scan_step, src_eligible, hn, hc, h6, hsg]
              · have h50 : 50 ≤ n := by omega
                simp [scan_step, src_eligible, hn, hc, h6, hsg, h50]
            · simp [scan_step, src_eligible, hn, hc, h6]
          · simp [scan_step, src_eligible, hn, hc]

/-- One-step simulation between the source accumulator and the unfiltered
one: the source accumulator equals the unfiltered accumulator once the
latter's best confidence exceeds 0.6, and is still the initial `(none, 0)`
otherwise. -/
theorem step_rel (s r : Option Opportunity × ℚ) (a : PairAnalysis)
    (h1 : (6:ℚ)/10 < s.2 → r = s) (h2 : ¬ (6:ℚ)/10 < s.2 → r = (none, 0)) :
    ((6:ℚ)/10 < (spec_step s a).2 → scan_step r a = spec_step s a) ∧
    (¬ (6:ℚ)/10 < (spec_step s a).2 → scan_step r a = (none, 0)) := by
  rw [spec_step_eq, scan_step_eq]
  by_cases h6 : (6:ℚ)/10 < s.2
  · rw [h1 h6]
    by_cases hup : src_eligible a ∧ s.2 < opportunity_confidence a
    · have h6q : (6:ℚ)/10 < opportunity_confidence a := lt_trans h6 hup.2
      rw [if_pos hup, if_pos ⟨hup.1, hup.2, h6q⟩]
      exact ⟨fun _ => rfl, fun hcon => absurd h6q (by simpa using hcon)⟩
    · rw [if_neg hup, if_neg (fun hcon => hup ⟨hcon.1, hcon.2.1⟩)]
      exact ⟨fun _ => rfl, fun hcon => absurd h6 hcon⟩
  · rw [h2 h6]
    by_cases hup : src_eligible a ∧ s.2 < opportunity_confidence a
    · rw [if_pos hup]
      constructor
      · intro h6q
        simp only at h6q
        have h0 : ((none : Option Opportunity), (0:ℚ)).2 < opportunity_confidence a := by
          show (0:ℚ) < opportunity_confidence a
          linarith
        rw [if_pos ⟨hup.1, h0, h6q⟩]
      · intro hle
        simp only at hle
        rw [if_neg (fun hcon => hle hcon.2.2)]
    · rw [if_neg hup]
      have hfalse : ¬ (src_eligible a ∧ ((none : Option Opportunity), (0:ℚ)).2
          < opportunity_confidence a ∧ (6:ℚ)/10 < opportunity_confidence a) := by
        intro hcon
        push_neg at hup h6
        have hq : opportunity_confidence a ≤ s.2 := hup hcon.1
        have : opportunity_confidence a ≤ 6/10 := le_trans hq h6
        exact this.not_lt hcon.2.2
      constructor
      · intro hgt; exact absurd hgt h6
      · intro hle
        rw [if_neg hfalse]

/-- The one-step simulation extended along the whole fold. -/
theorem foldl_rel (l : List PairAnalysis) :
    ∀ s r : Option Opportunity × ℚ,
      ((6:ℚ)/10 < s.2 → r = s) → (¬ (6:ℚ)/10 < s.2 → r = (none, 0)) →
      ((6:ℚ)/10 < (l.foldl spec_step s).2 →
          l.foldl scan_step r = l.foldl spec_step s) ∧
      (¬ (6:ℚ)/10 < (l.foldl spec_step s).2 →
          l.foldl scan_step r = (none, 0)) := by
  induction l with
  | nil => intro s r h1 h2; exact ⟨h1, h2⟩
  | cons a rest ih =>
    intro s r h1 h2
    simp only [List.foldl_cons]
    exact ih _ _ (step_rel s r a h1 h2).1 (step_rel s r a h1 h2).2

/-- The source scan equals first-maximum selection filtered through the
0.6 threshold: it selects the unfiltered first maximum when that maximum's
confidence exceeds 0.6 and selects nothing otherwise. -/
theorem scan_eq_spec_scan (l : List PairAnalysis) :
    scan l = if (6:ℚ)/10 < (spec_scan l).2 then spec_scan l else (none, 0) := by
  have h := foldl_rel l (none, 0) (none, 0)
    (fun h => absurd h (by norm_num)) (fun _ => rfl)
  by_cases h6 : (6:ℚ)/10 < (spec_scan l).2
  · rw [if_pos h6]; exact h.1 h6
  · rw [if_neg h6]; exact h.2 h6

/-- The running best confidence never decreases in one step. -/
theorem spec_step_snd_mono (acc : Option Opportunity × ℚ) (a : PairAnalysis) :
    acc.2 ≤ (spec_step acc a).2 := by
  rw [spec_step_eq]
  split_ifs with h
  · exact le_of_lt h.2
  · exact le_refl _

/-- The running best confidence never decreases along the fold. -/
theorem spec_foldl_snd_mono (l : List PairAnalysis) :
    ∀ acc : Option Opportunity × ℚ, acc.2 ≤ (l.foldl spec_step acc).2 := by
  induction l with
  | nil => intro acc; exact le_refl _
  | cons a rest ih =>
    intro acc
    exact le_trans (spec_step_snd_mono acc a) (ih (spec_step acc a))

/-- After one step on a non-skipped pair, the running best confidence is
at least that pair's confidence. -/
theorem spec_step_conf_le (acc : Option Opportunity × ℚ) (a : PairAnalysis)
    (h : src_eligible a) : opportunity_confidence a ≤ (spec_step acc a).2 := by
  rw [spec_step_eq]
  split_ifs with hc
  · exact le_refl _
  · push_neg at hc
    exact hc h

/-- The final best confidence dominates every non-skipped pair of the
list. -/
theorem spec_foldl_conf_ge (l : List PairAnalysis) :
    ∀ acc : Option Opportunity × ℚ, ∀ a ∈ l, src_eligible a →
      opportunity_confidence a ≤ (l.foldl spec_step acc).2 := by
  induction l with
  | nil => intro acc a ha; exact absurd ha (List.not_mem_nil a)
  | cons b rest ih =>
    intro acc a ha helig
    rcases List.mem_cons.mp ha with rfl | ha
    · exact le_trans (spec_step_conf_le acc a helig)
        (spec_foldl_snd_mono rest (spec_step acc a))
    · exact ih (spec_step acc b) a ha helig

/-- A selected opportunity always carries the running best confidence. -/
theorem spec_foldl_conf_inv (l : List PairAnalysis) :
    ∀ acc : Option Opportunity × ℚ,
      (∀ o, acc.1 = some o → o.confidence = acc.2) →
      ∀ o, (l.foldl spec_step acc).1 = some o →
        o.confidence = (l.foldl spec_step acc).2 := by
  induction l with
  | nil => intro acc h; exact h
  | cons a rest ih =>
    intro acc h
    simp only [List.foldl_cons]
    apply ih
    rw [spec_step_eq]
    split_ifs with hc
    · intro o ho
      simp only [Option.some.injEq] at ho
      rw [← ho]
    · exact h

/-- C6 (counterexample): a single configured instrument with an acceptable
spread, 60 historical bars and a non-neutral (buy) signal, whose computed
confidence is 3/20: it survives all three discard conditions of the claim,
so the claimed scan returns it as the highest-confidence Opportunity — but
the source's loop additionally requires the confidence to exceed 0.6
before an opportunity may become `best_opportunity`, so the source scan
returns nothing. -/
theorem C6_counterexample :
    (scan [⟨"EUR_USD", some 1, true, some 60, .buy, 0, 0⟩]).1 = none ∧
    (scanClaim [⟨"EUR_USD", some 1, true, some 60, .buy, 0, 0⟩]).1
      = some ⟨"EUR_USD", Signal.buy, 3/20, 1⟩ ∧
    (scan [⟨"EUR_USD", some 1, true, some 60, .buy, 0, 0⟩]).1
      ≠ (scanClaim [⟨"EUR_USD", some 1, true, some 60, .buy, 0, 0⟩]).1 := by
  have hconf : opportunity_confidence ⟨"EUR_USD", some 1, true, some 60, .buy, 0, 0⟩
      = 3/20 := by
    simp only [opportunity_confidence, calculate_confidence_score]
    norm_num [max_def, min_def]
  have h1 : (scan [⟨"EUR_USD", some 1, true, some 60, .buy, 0, 0⟩]).1 = none := by
    unfold scan
    simp only [List.foldl_cons, List.foldl_nil]
    rw [scan_step_eq, if_neg]
    intro hcon
    rw [hconf] at hcon
    have := hcon.2.2
    norm_num at this
  have h2 : (scanClaim [⟨"EUR_USD", some 1, true, some 60, .buy, 0, 0⟩]).1
      = some ⟨"EUR_USD", Signal.buy, 3/20, 1⟩ := by
    unfold scanClaim
    simp only [List.foldl_cons, List.foldl_nil]
    rw [if_pos]
    · rw [hconf]; rfl
    · constructor
      · decide
      · rw [hconf]; norm_num
  refine ⟨h1, h2, ?_⟩
  rw [h1, h2]
  simp

/-- C6 (amended): the source scan skips every instrument that is absent
from the fetched prices, has an unacceptable spread, has missing candles
or fewer than 50 close bars, or has a neutral signal — so sentiment alone
never produces a candidate — and it additionally admits a candidate only
when its confidence exceeds 0.6.  Among the non-skipped instruments the
selection is the first strict maximum of the confidence (ties broken by
iteration order, first wins: a later candidate that does not strictly beat
the running best, including an exact tie, leaves the selection unchanged),
filtered through the 0.6 threshold; and the cycle proceeds to execution
only if the selected confidence exceeds 0.7, in which case the executed
opportunity is exactly the unfiltered first maximum (the 0.6 filter never
changes which trade executes, since 0.7 > 0.6). -/
theorem C6_amended (l : List PairAnalysis) :
    (scan l = if (6:ℚ)/10 < (spec_scan l).2 then spec_scan l else (none, 0)) ∧
    (∀ a ∈ l, src_eligible a → opportunity_confidence a ≤ (spec_scan l).2) ∧
    (∀ a : PairAnalysis, opportunity_confidence a ≤ (spec_scan l).2 →
      spec_scan (l ++ [a]) = spec_scan l) ∧
    (∀ (b : ℚ) (o : Opportunity), execute_trading_strategy (some b) l = some o →
      ¬ b < 100 ∧ (7:ℚ)/10 < o.confidence ∧ spec_scan l = (some o, o.confidence)) := by
  refine ⟨scan_eq_spec_scan l, spec_foldl_conf_ge l (none, 0), ?_, ?_⟩
  · intro a hle
    unfold spec_scan
    rw [List.foldl_append]
    simp only [List.foldl_cons, List.foldl_nil]
    rw [spec_step_eq, if_neg]
    intro hcon
    exact hcon.2.not_le hle
  · intro b o h
    simp only [execute_trading_strategy] at h
    by_cases hb : b < 100
    · rw [if_pos hb] at h; exact absurd h (by simp)
    · rw [if_neg hb] at h
      rcases hsc : scan l with ⟨best, bc⟩
      rw [hsc] at h
      cases best with
      | none => simp at h
      | some o' =>
        simp only at h
        by_cases h7 : (7:ℚ)/10 < bc
        · rw [if_pos h7] at h
          simp only [Option.some.injEq] at h
          subst h
          have hspec := scan_eq_spec_scan l
          by_cases h6 : (6:ℚ)/10 < (spec_scan l).2
          · rw [if_pos h6] at hspec
            have heq : spec_scan l = (some o', bc) := by rw [← hspec, hsc]
            have hconf : o'.confidence = (spec_scan l).2 := by
              apply spec_foldl_conf_inv l (none, 0) (by simp)
              show (spec_scan l).1 = some o'
              rw [heq]
            have hbc : (spec_scan l).2 = bc := by rw [heq]
            refine ⟨hb, ?_, ?_⟩
            · rw [hconf, hbc]; exact h7
            · rw [heq, hconf, hbc]
          · rw [if_neg h6] at hspec
            rw [hspec] at hsc
            simp at hsc
        · rw [if_neg h7] at h
          exact absurd h (by simp)

/-- C6 (witness): the amended theorem's execution clause applied to a
concrete scan whose single candidate has confidence 17/20 and therefore
executes with balance 1000. -/
theorem C6_amended_witness :
    execute_trading_strategy (some 1000)
        [⟨"EUR_USD", some 1, true, some 60, .buy, 1, 1⟩]
      = some ⟨"EUR_USD", Signal.buy, 17/20, 1⟩ ∧
    ¬ (1000:ℚ) < 100 ∧
    (7:ℚ)/10 < (Opportunity.mk "EUR_USD" Signal.buy (17/20) 1).confidence ∧
    spec_scan [⟨"EUR_USD", some 1, true, some 60, .buy, 1, 1⟩]
      = (some ⟨"EUR_USD", Signal.buy, 17/20, 1⟩, 17/20) := by
  have hconf : opportunity_confidence ⟨"EUR_USD", some 1, true, some 60, .buy, 1, 1⟩
      = 17/20 := by
    simp only [opportunity_confidence, calculate_confidence_score]
    norm_num [max_def, min_def]
  have hscan : scan [⟨"EUR_USD", some 1, true, some 60, .buy, 1, 1⟩]
      = (some ⟨"EUR_USD", Signal.buy, 17/20, 1⟩, 17/20) := by
    unfold scan
    simp only [List.foldl_cons, List.foldl_nil]
    rw [scan_step_eq, if_pos]
    · rw [hconf]; rfl
    · refine ⟨⟨rfl, rfl, rfl, by norm_num, by decide⟩, ?_, ?_⟩ <;>
        rw [hconf] <;> norm_num
  have hexec : execute_trading_strategy (some 1000)
      [⟨"EUR_USD", some 1, true, some 60, .buy, 1, 1⟩]
      = some ⟨"EUR_USD", Signal.buy, 17/20, 1⟩ := by
    simp only [execute_trading_strategy]
    rw [if_neg (by norm_num), hscan]
    norm_num
  obtain ⟨hb, h7, hsp⟩ := (C6_amended _).2.2.2 1000 _ hexec
  exact ⟨hexec, hb, h7, by simpa using hsp⟩
